import Mathlib

/-!
Shallow embedding of the mcp-judge evaluation pipeline
(src/mcp_judge/judge.py, src/mcp_judge/run.py, src/mcp_judge/manual.py).

Python dicts whose key set varies between code paths are embedded as
structures with `Option` fields: `none` means the key is absent.
The reasoning backend (`query_structural` from the external just_agents
library, called with `enforce_validation=True`) is embedded as a parameter
`Backend : String → Except String Judgement`: per its validation contract it
either yields a schema-valid `Judgement` or raises, which the `Except` error
case models.  Python exceptions are modelled as `Except.error` carrying the
exception description string.
-/

namespace McpJudge

/-- The `reason` field of the `Judgement` pydantic model in judge.py is typed
`Optional[str] | List[str]`: it may be `None`, a single string, or a list of
strings. -/
inductive Reason where
  | null : Reason
  | str (s : String) : Reason
  | list (l : List String) : Reason
deriving DecidableEq, Repr

/-- The `Judgement` pydantic model (judge.py lines 6-9): the schema the
backend response must validate against, and also the shape of the dict that
`JudgeAgent.evaluate` returns (same three keys). -/
structure Judgement where
  passed : Bool
  reason : Reason
  raw_result : String
deriving DecidableEq, Repr

/-- Embedding of a Python `Dict[str, Any]` of expected parameters; the code
only ever passes such a dict through or formats it with `str(...)`, so
string values suffice. -/
abbrev Params := List (String × String)

/-- A single-quote character as a string, used by the Python `repr` of
strings inside lists and dicts. -/
def sq : String := String.singleton (Char.ofNat 39)

/-- Python `repr` of a string (as it appears inside `str(list)` or
`str(dict)`); quoting simplified to plain single quotes. -/
def pyReprStr (s : String) : String := sq ++ s ++ sq

/-- Python `str` of a list of strings: bracketed, comma-separated, each item single-quoted. -/
def pyReprStrList (l : List String) : String :=
  "[" ++ String.intercalate ", " (l.map pyReprStr) ++ "]"

/-- Python `str` of one dict entry: quoted key, colon, quoted value. -/
def pyReprPair (p : String × String) : String :=
  pyReprStr p.1 ++ ": " ++ pyReprStr p.2

/-- Python `str` of a dict of strings. -/
def pyReprDict (d : Params) : String :=
  "\x7b" ++ String.intercalate ", " (d.map pyReprPair) ++ "\x7d"

/-- Python `str(x)` for a value that is either a string or `None`. -/
def pyStrOpt : Option String → String
  | none => "None"
  | some s => s

/-- Python `str(expected_tools)` for `Optional[List[str]]` (judge.py line
39): `None` renders as the marker `None`, a list via `repr`. -/
def pyStrTools : Option (List String) → String
  | none => "None"
  | some l => pyReprStrList l

/-- Python `str(expected_parameters)` for `Optional[Dict[str, Any]]`
(judge.py line 42). -/
def pyStrParams : Option Params → String
  | none => "None"
  | some d => pyReprDict d

/-- The f-string template of judge.py lines 27-55 with the five interpolated
values abstracted out (they appear in the source order: question, generated
answer, reference answer, expected tools, expected parameters). -/
def promptTemplate (q ga ra et ep : String) : String :=
  "You are evaluating whether a generated answer correctly addresses a question and uses the expected MCP tools with proper parameters.\n\nQuestion:\n"
  ++ q
  ++ "\n\nGenerated Answer (with tool calls):\n"
  ++ ga
  ++ "\n\nReference Answer:\n"
  ++ ra
  ++ "\n\nExpected MCP Tools:\n"
  ++ et
  ++ "\n\nExpected Parameters:\n"
  ++ ep
  ++ "\n\nEvaluate the generated answer and provide your judgment as a JSON object with the following structure:\n- \"passed\": boolean indicating if the answer passes evaluation (true/false)\n- \"reason\": string explaining your reasoning (optional, but recommended for failed cases)\n- \"raw_result\": string containing the raw evaluation details\n\nConsider these criteria:\n1. Does the generated answer accurately address the question?\n2. Are the expected MCP tools being used correctly?\n3. Are the tool parameters used appropriately?\n4. Is the answer factually consistent with the reference answer?\n\nRespond only with a valid JSON object matching the required structure."

/-- Evaluation of the prompt f-string over runtime values (judge.py lines
27-55).  The source applies `question.strip()` directly, so a `None`
question raises an `AttributeError`; the other four inputs go through
`str(...)` first and therefore render as the marker `None` when absent. -/
def buildPrompt (question generated_answer reference_answer : Option String)
    (expected_tools : Option (List String)) (expected_parameters : Option Params) :
    Except String String :=
  match question with
  | none => .error "AttributeError: NoneType object has no attribute strip"
  | some q =>
      .ok (promptTemplate q.trim (pyStrOpt generated_answer).trim
        (pyStrOpt reference_answer).trim (pyStrTools expected_tools)
        (pyStrParams expected_parameters))

/-- The structured-output backend call `self.query_structural(prompt,
parser=Judgement, enforce_validation=True)` (judge.py line 57), abstracted
as a function of the prompt: by the `enforce_validation` contract it either
returns a schema-valid `Judgement` or raises. -/
abbrev Backend := String → Except String Judgement

/-- `JudgeAgent.evaluate` (judge.py lines 13-62): build the prompt, call the
structured backend, and return a dict with the three validated fields copied
through. -/
def JudgeAgent.evaluate (backend : Backend)
    (question generated_answer reference_answer : String)
    (expected_tools : Option (List String)) (expected_parameters : Option Params) :
    Except String Judgement :=
  match buildPrompt (some question) (some generated_answer)
      (some reference_answer) expected_tools expected_parameters with
  | .error e => .error e
  | .ok prompt =>
      match backend prompt with
      | .error e => .error e
      | .ok result => .ok ⟨result.passed, result.reason, result.raw_result⟩

/-- One corpus row as loaded from the questions JSON file (run.py lines
86-92): a dict whose keys may each be absent, read with `.get` defaults. -/
structure QuestionData where
  question : Option String
  answer : Option String
  reference_answer : Option String
  expected_tools : Option (List String)
  expected_parameters : Option Params
deriving DecidableEq, Repr

/-- One result dict appended by the `evaluate` command (run.py lines
103-107 on success, lines 122-129 on a judge fault).  `Option` fields model
keys that are present on only one of the two paths: `generated_answer`,
`expected_tools` and `expected_parameters` are set only on the success path,
`error` only on the fault path. -/
structure EvaluationRecord where
  question_index : Nat
  question : String
  generated_answer : Option String
  passed : Bool
  reason : Reason
  raw_result : String
  expected_tools : Option (List String)
  expected_parameters : Option Params
  error : Option Bool
deriving DecidableEq, Repr

/-- The per-item judge call of run.py lines 88-101: read the fields of the
item with the `.get` defaults of the source (reference answer defaulting to the
generated answer) and invoke `judge.evaluate`. -/
def evalCall (b : Backend) (qd : QuestionData) : Except String Judgement :=
  let question := qd.question.getD ""
  let generated_answer := qd.answer.getD ""
  let reference_answer := qd.reference_answer.getD generated_answer
  let expected_tools := qd.expected_tools.getD []
  let expected_parameters := qd.expected_parameters.getD []
  JudgeAgent.evaluate b question generated_answer reference_answer
    (some expected_tools) (some expected_parameters)

/-- Body of the per-item loop of run.py lines 86-129 at enumerate index `i`
(0-based, as produced by `enumerate(questions)`): on success the verdict
dict is augmented in place; on any exception a synthesized failing record is
appended and the loop continues. -/
def evalItem (b : Backend) (i : Nat) (qd : QuestionData) : EvaluationRecord :=
  match evalCall b qd with
  | .ok v =>
      { question_index := i
        question := qd.question.getD ""
        generated_answer := some (qd.answer.getD "")
        passed := v.passed
        reason := v.reason
        raw_result := v.raw_result
        expected_tools := some (qd.expected_tools.getD [])
        expected_parameters := some (qd.expected_parameters.getD [])
        error := none }
  | .error e =>
      { question_index := i
        question := qd.question.getD ""
        generated_answer := none
        passed := false
        reason := .str ("Evaluation error: " ++ e)
        raw_result := ""
        expected_tools := none
        expected_parameters := none
        error := some true }

/-- The accumulation loop of run.py lines 86-129, carrying the running
enumerate index. -/
def runLoop (b : Backend) : Nat → List QuestionData → List EvaluationRecord
  | _, [] => []
  | i, qd :: rest => evalItem b i qd :: runLoop b (i + 1) rest

/-- The full `results` list produced by the `evaluate` command for a corpus
(run.py lines 81-129): indices start at 0 from `enumerate`. -/
def results (b : Backend) (qs : List QuestionData) : List EvaluationRecord :=
  runLoop b 0 qs

/-- The `passed_count` accumulator of run.py lines 82, 111-112: incremented
only on the success path and only when the verdict passed. -/
def passedCountLoop (b : Backend) : List QuestionData → Nat
  | [] => 0
  | qd :: rest =>
      (match evalCall b qd with
        | .ok v => if v.passed then 1 else 0
        | .error _ => 0) + passedCountLoop b rest

/-- The final `passed_count` for a corpus. -/
def passedCount (b : Backend) (qs : List QuestionData) : Nat :=
  passedCountLoop b qs

/-- The success-rate expression of run.py line 136,
`passed_count / len(questions) * 100`: Python true division raises
`ZeroDivisionError` when the corpus is empty, with no guard in the source. -/
def successRate (passed_count total : Nat) : Except String Rat :=
  if total = 0 then .error "ZeroDivisionError: division by zero"
  else .ok ((passed_count : Rat) / (total : Rat) * 100)

/-- A table cell value as handed to the results table (run.py lines
150-155); the reason cell may be `None`, a string, or (unhandled further
down) a list. -/
inductive Cell where
  | pynone : Cell
  | str (s : String) : Cell
  | list (l : List String) : Cell
deriving DecidableEq, Repr

/-- The question-preview expression of run.py line 147:
`question[:47] + "..." if len(question) > 50 else question`. -/
def questionPreview (q : String) : String :=
  if q.length > 50 then q.take 47 ++ "..." else q

/-- The reason-preview expression of run.py line 148:
`reason[:37] + "..." if reason and len(reason) > 40 else reason`,
evaluated over the three runtime shapes of `reason`.  For a truthy string
longer than 40 it truncates; for a `None` or falsy value it passes the
value through; for a truthy list longer than 40 the slice yields a list and
`list + "..."` raises a `TypeError`. -/
def reasonPreview : Reason → Except String Cell
  | .null => .ok .pynone
  | .str s =>
      if s ≠ "" ∧ s.length > 40 then .ok (.str (s.take 37 ++ "..."))
      else .ok (.str s)
  | .list l =>
      if l ≠ [] ∧ l.length > 40 then
        .error "TypeError: can only concatenate list (not \"str\") to list"
      else .ok (.list l)

/-- One rendered table row (run.py lines 145-155): the displayed question
number is `question_index + 1`, the status string, the truncated question
preview and the reason cell. -/
def toRow (r : EvaluationRecord) : Except String (String × String × String × Cell) :=
  match reasonPreview r.reason with
  | .error e => .error e
  | .ok rc =>
      .ok (toString (r.question_index + 1),
           if r.passed then "PASSED" else "FAILED",
           questionPreview r.question,
           rc)

/-- The results-table loop of run.py lines 145-155. -/
def renderTable (records : List EvaluationRecord) :
    Except String (List (String × String × String × Cell)) :=
  records.mapM toRow

/-- Everything the `evaluate` command computes after loading (run.py lines
81-157): the records, the summary success rate (which may raise), and the
rendered table rows (which may raise). -/
def evaluateCommand (b : Backend) (qs : List QuestionData) :
    Except String (List EvaluationRecord × Rat ×
      List (String × String × String × Cell)) :=
  match successRate (passedCount b qs) qs.length with
  | .error e => .error e
  | .ok rate =>
      match renderTable (results b qs) with
      | .error e => .error e
      | .ok rows => .ok (results b qs, rate, rows)

/-- The optional save step of run.py lines 159-167 appended to the command:
the write outcome is a parameter; a write exception is caught and reported,
so it only flips the `saved` flag and never escapes. -/
def evaluateCommandWithSave (b : Backend) (qs : List QuestionData)
    (writeOutcome : Except String Unit) :
    Except String ((List EvaluationRecord × Rat ×
      List (String × String × String × Cell)) × Bool) :=
  match evaluateCommand b qs with
  | .error e => .error e
  | .ok o =>
      match writeOutcome with
      | .ok _ => .ok (o, true)
      | .error _ => .ok (o, false)

/-- Drop leading whitespace characters from a character list. -/
def dropLeadingWS : List Char → List Char
  | [] => []
  | c :: cs => if c.isWhitespace then dropLeadingWS cs else c :: cs

/-- Python `str.strip()`: remove leading and trailing whitespace. -/
def pyStrip (s : String) : String :=
  String.mk ((dropLeadingWS ((dropLeadingWS s.data).reverse)).reverse)

/-- Python `str.lower()` (ASCII case folding, which covers the `all`
token the source compares against). -/
def pyLower (s : String) : String :=
  String.mk (s.data.map Char.toLower)

/-- Worker for `pySplitComma`, accumulating the current token reversed. -/
def splitCommaAux : List Char → List Char → List String
  | [], acc => [String.mk acc.reverse]
  | c :: cs, acc =>
      if c = Char.ofNat 44 then String.mk acc.reverse :: splitCommaAux cs []
      else splitCommaAux cs (c :: acc)

/-- Python `str.split(",")`: comma-separated tokens (the split of the empty
string is the single empty token, as in Python). -/
def pySplitComma (s : String) : List String :=
  splitCommaAux s.data []

/-- Digits of a token as a natural number: `none` when the character list is
empty or contains a non-digit. -/
def digitsToNat : List Char → Option Nat
  | [] => none
  | cs =>
      cs.foldl
        (fun acc c =>
          acc.bind (fun n => if c.isDigit then some (n * 10 + (c.toNat - 48)) else none))
        (some 0)

/-- Python `int(token.strip())` as used in manual.py line 157: strips
surrounding whitespace, accepts an optional sign followed by digits, and
raises `ValueError` (here `none`) on anything else. -/
def pyInt (s : String) : Option Int :=
  match (pyStrip s).toList with
  | [] => none
  | c :: rest =>
      if c = Char.ofNat 45 then (digitsToNat rest).map (fun n => -(n : Int))
      else if c = Char.ofNat 43 then (digitsToNat rest).map (fun n => (n : Int))
      else (digitsToNat (c :: rest)).map (fun n => (n : Int))

/-- The index-parsing comprehension of manual.py line 157:
`[int(idx.strip()) for idx in question_indices.split(",")]`; a single bad
token makes the whole comprehension raise `ValueError`. -/
def parseIndices (spec : String) : Option (List Int) :=
  (pySplitComma spec).mapM pyInt

/-- The filtering loop of manual.py lines 158-162: each parsed index in the
given order is either appended (1-based, in range) or recorded as an
out-of-range warning and skipped. -/
def pickValid {α : Type} (corpus : List α) : List Int → List α × List Int
  | [] => ([], [])
  | idx :: rest =>
      let r := pickValid corpus rest
      if 1 ≤ idx ∧ idx ≤ (corpus.length : Int) then
        match corpus[idx.toNat - 1]? with
        | some x => (x :: r.1, r.2)
        | none => r
      else (r.1, idx :: r.2)

/-- The selection logic of manual.py lines 147-169: the case-insensitive
token `all` selects the whole corpus; otherwise the spec is parsed as
comma-separated 1-based indices (a parse failure is a hard error before
anything is selected), out-of-range indices are warned and skipped, and a
selection that resolves to zero items is a hard error.  Returns the
selected items together with the list of warned indices. -/
def selectQuestions {α : Type} (corpus : List α) (spec : String) :
    Except String (List α × List Int) :=
  let step : Except String (List α × List Int) :=
    if pyLower spec = "all" then .ok (corpus, [])
    else
      match parseIndices spec with
      | none => .error "Error: Invalid question indices format. Use comma-separated numbers or all."
      | some ints => .ok (pickValid corpus ints)
  match step with
  | .error e => .error e
  | .ok r => if r.1.isEmpty then .error "Error: No valid questions selected." else .ok r

/-- The question loop header of manual.py line 197:
`for i, question_data in enumerate(questions_to_ask[:1])` — the selected
batch is sliced to its first element before iteration. -/
def questionsAsked {α : Type} (questions_to_ask : List α) : List α :=
  questions_to_ask.take 1

/-- A backend that always returns a fixed passing verdict. -/
def okB : Backend := fun _ => .ok ⟨true, .null, "ok"⟩

/-- A backend whose call always raises, modelling a connectivity fault. -/
def fb : Backend := fun _ => .error "boom"

/-- A backend returning a failing verdict whose reason is a list of 41
strings. -/
def listB : Backend := fun _ => .ok ⟨false, .list (List.replicate 41 "reason"), "raw"⟩

/-- A concrete one-row corpus item. -/
def sampleQD : QuestionData :=
  { question := some "Q1"
    answer := some "A1"
    reference_answer := none
    expected_tools := none
    expected_parameters := none }

theorem runLoop_length (b : Backend) (qs : List QuestionData) (i : Nat) :
    (runLoop b i qs).length = qs.length := by
  induction qs generalizing i with
  | nil => rfl
  | cons qd rest ih => simp [runLoop, ih]

theorem runLoop_getElem (b : Backend) (qs : List QuestionData) (i j : Nat) :
    (runLoop b i qs)[j]? = (qs[j]?).map (fun qd => evalItem b (i + j) qd) := by
  induction qs generalizing i j with
  | nil => simp [runLoop]
  | cons qd rest ih =>
      cases j with
      | zero => simp [runLoop]
      | succ j =>
          have hn : i + 1 + j = i + (j + 1) := by omega
          simp only [runLoop, List.getElem?_cons_succ, ih (i + 1) j, hn]

theorem results_getElem (b : Backend) (qs : List QuestionData) (j : Nat) :
    (results b qs)[j]? = (qs[j]?).map (fun qd => evalItem b j qd) := by
  simpa using runLoop_getElem b qs 0 j

theorem evalItem_index (b : Backend) (i : Nat) (qd : QuestionData) :
    (evalItem b i qd).question_index = i := by
  cases h : evalCall b qd <;> simp [evalItem, h]

theorem runLoop_map_index (b : Backend) (qs : List QuestionData) (i : Nat) :
    (runLoop b i qs).map (fun r => r.question_index) = List.range' i qs.length := by
  induction qs generalizing i with
  | nil => rfl
  | cons qd rest ih =>
      simp [runLoop, List.range'_succ, evalItem_index, ih]

/-- C1: on any per-item judge failure the batch is not aborted: the loop
appends a synthesized failing record (`passed = false`, reason
`Evaluation error: ` plus the failure description, empty `raw_result`,
`error = true`) at the position of that item, the results list still has one
record per corpus item, and any item whose own judge-call outcome is
unchanged produces an identical record. -/
theorem c1_fault_isolation (b1 b2 : Backend) (qs : List QuestionData)
    (j : Nat) (e : String) (hj : j < qs.length)
    (hfault : evalCall b1 qs[j] = .error e) :
    (results b1 qs).length = qs.length ∧
    (results b1 qs)[j]? = some
      { question_index := j
        question := (qs[j]).question.getD ""
        generated_answer := none
        passed := false
        reason := .str ("Evaluation error: " ++ e)
        raw_result := ""
        expected_tools := none
        expected_parameters := none
        error := some true } ∧
    ∀ (k : Nat) (hk : k < qs.length),
      evalCall b1 qs[k] = evalCall b2 qs[k] →
      (results b1 qs)[k]? = (results b2 qs)[k]? := by
  refine ⟨?_, ?_, ?_⟩
  · simpa [results] using runLoop_length b1 qs 0
  · rw [results_getElem, List.getElem?_eq_getElem hj]
    simp [evalItem, hfault]
  · intro k hk hsame
    rw [results_getElem, results_getElem, List.getElem?_eq_getElem hk]
    simp only [Option.map_some']
    congr 1
    simp [evalItem, hsame]

/-- C1 witness: a one-item corpus whose judge call raises `boom` yields the
synthesized failing record at position 0. -/
theorem c1_witness :
    (results fb [sampleQD])[0]? = some
      { question_index := 0
        question := "Q1"
        generated_answer := none
        passed := false
        reason := .str ("Evaluation error: " ++ "boom")
        raw_result := ""
        expected_tools := none
        expected_parameters := none
        error := some true } :=
  (c1_fault_isolation fb fb [sampleQD] 0 "boom" (by decide) rfl).2.1

/-- C3 counterexample: the claim says the stored `question_index` equals the
1-based position of the item; for a one-item corpus the stored value is 0, the
0-based `enumerate` index, not 1. -/
theorem c3_counterexample :
    (results okB [sampleQD]).map (fun r => r.question_index) = [0] ∧
    (0 : Nat) ≠ 1 := by
  exact ⟨rfl, by decide⟩

/-- C3 amended: the `question_index` stored in every record (success or
error) is the 0-based position of the item in the original corpus — the 1-based
position minus one, the table adding one back for display — and the stored
index sequence is monotonically increasing in corpus order. -/
theorem c3_index_order (b : Backend) (qs : List QuestionData) :
    (results b qs).map (fun r => r.question_index) = List.range qs.length ∧
    List.Pairwise (· < ·) ((results b qs).map (fun r => r.question_index)) := by
  have h : (results b qs).map (fun r => r.question_index) = List.range qs.length := by
    rw [results, runLoop_map_index, List.range_eq_range']
  exact ⟨h, by rw [h]; exact List.pairwise_lt_range _⟩

/-- C8 counterexample: the claim says every record carries
`expected_tools`, `expected_parameters` and an `error` boolean; on a
success the record has no `error` key at all, and on a fault the record has
no `expected_tools` key. -/
theorem c8_counterexample :
    (results okB [sampleQD]).map (fun r => r.error) = [none] ∧
    (results fb [sampleQD]).map (fun r => r.expected_tools) = [none] := by
  exact ⟨rfl, rfl⟩

/-- C8 amended: every record carries `question_index` and the original
question; a success record additionally carries the generated answer,
`expected_tools`, `expected_parameters` and the verdict fields, with no
`error` key; a fault record carries `error = true` and the synthesized
failing verdict fields, with no `generated_answer`, `expected_tools` or
`expected_parameters` keys. -/
theorem c8_record_shape (b : Backend) (qs : List QuestionData) (j : Nat)
    (hj : j < qs.length) :
    (∃ v, evalCall b qs[j] = .ok v ∧
      (results b qs)[j]? = some
        { question_index := j
          question := (qs[j]).question.getD ""
          generated_answer := some ((qs[j]).answer.getD "")
          passed := v.passed
          reason := v.reason
          raw_result := v.raw_result
          expected_tools := some ((qs[j]).expected_tools.getD [])
          expected_parameters := some ((qs[j]).expected_parameters.getD [])
          error := none }) ∨
    (∃ e, evalCall b qs[j] = .error e ∧
      (results b qs)[j]? = some
        { question_index := j
          question := (qs[j]).question.getD ""
          generated_answer := none
          passed := false
          reason := .str ("Evaluation error: " ++ e)
          raw_result := ""
          expected_tools := none
          expected_parameters := none
          error := some true }) := by
  rw [results_getElem, List.getElem?_eq_getElem hj]
  cases h : evalCall b qs[j] with
  | ok v => exact Or.inl ⟨v, rfl, by simp [evalItem, h]⟩
  | error e => exact Or.inr ⟨e, rfl, by simp [evalItem, h]⟩

/-- C8 witness: the amended shape at a concrete one-item corpus with a
succeeding judge. -/
theorem c8_witness :
    (∃ v, evalCall okB sampleQD = .ok v ∧
      (results okB [sampleQD])[0]? = some
        { question_index := 0
          question := sampleQD.question.getD ""
          generated_answer := some (sampleQD.answer.getD "")
          passed := v.passed
          reason := v.reason
          raw_result := v.raw_result
          expected_tools := some (sampleQD.expected_tools.getD [])
          expected_parameters := some (sampleQD.expected_parameters.getD [])
          error := none }) ∨
    (∃ e, evalCall okB sampleQD = .error e ∧
      (results okB [sampleQD])[0]? = some
        { question_index := 0
          question := sampleQD.question.getD ""
          generated_answer := none
          passed := false
          reason := .str ("Evaluation error: " ++ e)
          raw_result := ""
          expected_tools := none
          expected_parameters := none
          error := some true }) :=
  c8_record_shape okB [sampleQD] 0 (by decide)

/-- C2: `JudgeAgent.evaluate` is a typed boundary: for every backend and
every input tuple, either the backend call yields a schema-valid
`Judgement` and `evaluate` returns exactly its three validated fields
unchanged, or the backend call fails and `evaluate` fails with that same
error — it never fabricates or coerces a default verdict. -/
theorem c2_typed_boundary (backend : Backend)
    (question generated_answer reference_answer : String)
    (expected_tools : Option (List String)) (expected_parameters : Option Params) :
    (∃ j, backend (promptTemplate question.trim generated_answer.trim
        reference_answer.trim (pyStrTools expected_tools)
        (pyStrParams expected_parameters)) = .ok j ∧
      JudgeAgent.evaluate backend question generated_answer reference_answer
        expected_tools expected_parameters = .ok ⟨j.passed, j.reason, j.raw_result⟩) ∨
    (∃ e, backend (promptTemplate question.trim generated_answer.trim
        reference_answer.trim (pyStrTools expected_tools)
        (pyStrParams expected_parameters)) = .error e ∧
      JudgeAgent.evaluate backend question generated_answer reference_answer
        expected_tools expected_parameters = .error e) := by
  cases h : backend (promptTemplate question.trim generated_answer.trim
      reference_answer.trim (pyStrTools expected_tools)
      (pyStrParams expected_parameters)) with
  | ok j =>
      exact Or.inl ⟨j, rfl, by simp [JudgeAgent.evaluate, buildPrompt, pyStrOpt, h]⟩
  | error e =>
      exact Or.inr ⟨e, rfl, by simp [JudgeAgent.evaluate, buildPrompt, pyStrOpt, h]⟩

/-- C5 counterexample: the claim says aggregate reporting on an empty
corpus does not fail; on a zero-item corpus the success-rate expression
divides by `len(questions) = 0` with no guard and the command raises a
`ZeroDivisionError`. -/
theorem c5_counterexample :
    evaluateCommand okB [] = .error "ZeroDivisionError: division by zero" := rfl

/-- C5 amended: the evaluation loop itself handles an empty corpus (no
records, zero passed), but the success-rate computation is not guarded:
with `total = 0` it raises a division-by-zero error, and only with
`total ≠ 0` does it return `passed_count / total * 100`. -/
theorem c5_division_unguarded (b : Backend) :
    results b [] = [] ∧ passedCount b [] = 0 ∧
    (∀ pc, successRate pc 0 = .error "ZeroDivisionError: division by zero") ∧
    (∀ pc total, total ≠ 0 →
      successRate pc total = .ok ((pc : Rat) / (total : Rat) * 100)) := by
  refine ⟨rfl, rfl, fun pc => rfl, fun pc total h => ?_⟩
  simp [successRate, h]

/-- C5 witness: the unguarded branch at the concrete aggregate of 3 passes
out of 5. -/
theorem c5_witness :
    successRate 3 5 = .ok ((3 : Rat) / (5 : Rat) * 100) :=
  (c5_division_unguarded okB).2.2.2 3 5 (by decide)

/-- C6 counterexample: the claim says rendering a record whose reason is a
list of strings does not fail; with a backend returning a 41-string list
reason, the reason-preview slice concatenates a list with a string and the
command raises a `TypeError`. -/
theorem c6_counterexample :
    evaluateCommand listB [sampleQD] =
      .error "TypeError: can only concatenate list (not \"str\") to list" := rfl

/-- C6 amended: the schema accepts all three reason shapes (null, string,
list of strings) and the runner stores the reason unchanged — no
normalization to one shape occurs; the display preview handles null and
string reasons totally (truncating strings over 40 characters), but a
non-empty list reason of more than 40 elements makes the preview raise a
type error. -/
theorem c6_reason_shapes (s : String) (l : List String) (b : Backend)
    (qd : QuestionData) (v : Judgement) (hok : evalCall b qd = .ok v) :
    reasonPreview .null = .ok .pynone ∧
    (s.length ≤ 40 → reasonPreview (.str s) = .ok (.str s)) ∧
    (s ≠ "" → s.length > 40 →
      reasonPreview (.str s) = .ok (.str (s.take 37 ++ "..."))) ∧
    (l ≠ [] → l.length > 40 →
      reasonPreview (.list l) =
        .error "TypeError: can only concatenate list (not \"str\") to list") ∧
    (results b [qd]).map (fun r => r.reason) = [v.reason] := by
  refine ⟨rfl, ?_, ?_, ?_, ?_⟩
  · intro hle
    simp only [reasonPreview]
    rw [if_neg]
    intro hand
    omega
  · intro hne hgt
    simp [reasonPreview, hne, hgt]
  · intro hne hgt
    simp [reasonPreview, hne, hgt]
  · simp [results, runLoop, evalItem, hok]

/-- C6 witness: a 41-element list reason makes the preview raise, while a
short string reason is passed through. -/
theorem c6_witness :
    reasonPreview (.list (List.replicate 41 "r")) =
      .error "TypeError: can only concatenate list (not \"str\") to list" :=
  ((c6_reason_shapes "x" (List.replicate 41 "r") okB sampleQD
      ⟨true, .null, "ok"⟩ rfl).2.2.2.1) (by decide) (by decide)

/-- C7 counterexample: the claim says prompt construction never throws for
any string or None-like inputs; a `None` question makes
`question.strip()` raise an `AttributeError`. -/
theorem c7_counterexample :
    buildPrompt none (some "a") (some "b") (some []) (some []) =
      .error "AttributeError: NoneType object has no attribute strip" := rfl

/-- C7 amended: when the question is a string, prompt construction is pure
and total for all values of the remaining four inputs: it yields the fixed
template with the five fields in the stable labelled order (question,
generated answer, reference answer, expected tools, expected parameters),
string fields trimmed of surrounding whitespace, and each absent optional
input rendered as the explicit marker `None`; only a non-string (`None`)
question raises. -/
theorem c7_prompt_builder (q : String) (ga ra : Option String)
    (et : Option (List String)) (ep : Option Params) :
    buildPrompt (some q) ga ra et ep = .ok
      ("You are evaluating whether a generated answer correctly addresses a question and uses the expected MCP tools with proper parameters.\n\nQuestion:\n"
        ++ q.trim
        ++ "\n\nGenerated Answer (with tool calls):\n"
        ++ (pyStrOpt ga).trim
        ++ "\n\nReference Answer:\n"
        ++ (pyStrOpt ra).trim
        ++ "\n\nExpected MCP Tools:\n"
        ++ pyStrTools et
        ++ "\n\nExpected Parameters:\n"
        ++ pyStrParams ep
        ++ "\n\nEvaluate the generated answer and provide your judgment as a JSON object with the following structure:\n- \"passed\": boolean indicating if the answer passes evaluation (true/false)\n- \"reason\": string explaining your reasoning (optional, but recommended for failed cases)\n- \"raw_result\": string containing the raw evaluation details\n\nConsider these criteria:\n1. Does the generated answer accurately address the question?\n2. Are the expected MCP tools being used correctly?\n3. Are the tool parameters used appropriately?\n4. Is the answer factually consistent with the reference answer?\n\nRespond only with a valid JSON object matching the required structure.") ∧
    pyStrOpt none = "None" ∧ pyStrTools none = "None" ∧ pyStrParams none = "None" := by
  exact ⟨rfl, rfl, rfl, rfl⟩

/-- C9: the interactive judge command slices the selected batch to its
first element (`questions_to_ask[:1]`): a selection of two questions has
only one question asked, contradicting the full-selection behaviour the
help text of the command documents. -/
theorem c9_truncated_batch :
    questionsAsked ["q1", "q2"] = ["q1"] ∧
    (["q1", "q2"] : List String).length = 2 := by
  exact ⟨rfl, rfl⟩

/-- C10: a failure of the final results write is non-fatal: whenever the
command reaches the save step with outcome `o`, a raising write is caught
and the command still terminates normally with the same records, summary
and table (only the saved flag differs from a successful write). -/
theorem c10_save_failure_nonfatal (b : Backend) (qs : List QuestionData)
    (e : String)
    (o : List EvaluationRecord × Rat × List (String × String × String × Cell))
    (h : evaluateCommand b qs = .ok o) :
    evaluateCommandWithSave b qs (.error e) = .ok (o, false) ∧
    evaluateCommandWithSave b qs (.ok ()) = .ok (o, true) := by
  constructor <;> simp [evaluateCommandWithSave, h]

/-- C10 witness: a concrete one-item run whose write raises still ends
normally with the computed records and report. -/
theorem c10_witness :
    evaluateCommandWithSave okB [sampleQD] (.error "disk full") =
      .ok ((results okB [sampleQD], ((1 : Nat) : Rat) / ((1 : Nat) : Rat) * 100,
        [("1", "PASSED", "Q1", Cell.pynone)]), false) :=
  (c10_save_failure_nonfatal okB [sampleQD] "disk full"
    (results okB [sampleQD], ((1 : Nat) : Rat) / ((1 : Nat) : Rat) * 100,
      [("1", "PASSED", "Q1", Cell.pynone)]) rfl).1

theorem pickValid_spec {α : Type} (corpus : List α) (ints : List Int) :
    (pickValid corpus ints).1 = ints.filterMap (fun idx =>
        if 1 ≤ idx ∧ idx ≤ (corpus.length : Int) then corpus[idx.toNat - 1]? else none) ∧
    (pickValid corpus ints).2 = ints.filter (fun idx =>
        !decide (1 ≤ idx ∧ idx ≤ (corpus.length : Int))) := by
  induction ints with
  | nil => exact ⟨rfl, rfl⟩
  | cons idx rest ih =>
      by_cases hdx : 1 ≤ idx ∧ idx ≤ (corpus.length : Int)
      · cases hc : corpus[idx.toNat - 1]? with
        | some x =>
            simp [pickValid, hdx, hc, List.filterMap_cons, List.filter_cons, ih.1, ih.2]
        | none =>
            simp [pickValid, hdx, hc, List.filterMap_cons, List.filter_cons, ih.1, ih.2]
      · have hcond : idx < 1 ∨ (corpus.length : Int) < idx := by omega
        simp [pickValid, hdx, hcond, List.filterMap_cons, List.filter_cons, ih.1, ih.2]

/-- C4: selection semantics of the manual judge command: the
case-insensitive token `all` on a non-empty corpus returns the full corpus
in order with no warnings; a spec with any non-integer token is a hard
error before anything is selected; a parsed index list yields exactly the
items of the in-range indices in the given order (duplicates preserved) with the
out-of-range indices warned and skipped; and a selection resolving to zero
items (including `all` on an empty corpus) is a hard error. -/
theorem c4_selection {α : Type} (corpus : List α) (spec : String) :
    (pyLower spec = "all" → corpus ≠ [] →
      selectQuestions corpus spec = .ok (corpus, [])) ∧
    (pyLower spec = "all" → corpus = [] →
      selectQuestions corpus spec = .error "Error: No valid questions selected.") ∧
    (parseIndices spec = none → pyLower spec ≠ "all" →
      selectQuestions corpus spec =
        .error "Error: Invalid question indices format. Use comma-separated numbers or all.") ∧
    (∀ ints, parseIndices spec = some ints → pyLower spec ≠ "all" →
      (pickValid corpus ints).1 = ints.filterMap (fun idx =>
        if 1 ≤ idx ∧ idx ≤ (corpus.length : Int) then corpus[idx.toNat - 1]? else none) ∧
      (pickValid corpus ints).2 = ints.filter (fun idx =>
        !decide (1 ≤ idx ∧ idx ≤ (corpus.length : Int))) ∧
      ((pickValid corpus ints).1 ≠ [] →
        selectQuestions corpus spec = .ok (pickValid corpus ints)) ∧
      ((pickValid corpus ints).1 = [] →
        selectQuestions corpus spec = .error "Error: No valid questions selected.")) := by
  refine ⟨?_, ?_, ?_, ?_⟩
  · intro h1 h2
    cases corpus with
    | nil => exact absurd rfl h2
    | cons a l => simp [selectQuestions, h1]
  · intro h1 h2
    subst h2
    simp [selectQuestions, h1]
  · intro hp hne
    simp [selectQuestions, hne, hp]
  · intro ints hp hne
    refine ⟨(pickValid_spec corpus ints).1, (pickValid_spec corpus ints).2, ?_, ?_⟩
    · intro hnonempty
      have hie : (pickValid corpus ints).1.isEmpty = false := by
        cases h : (pickValid corpus ints).1 with
        | nil => exact absurd h hnonempty
        | cons a l => simp [h]
      simp [selectQuestions, hne, hp, hie]
    · intro hempty
      have hie : (pickValid corpus ints).1.isEmpty = true := by
        simp [hempty]
      simp [selectQuestions, hne, hp, hie]

/-- C4 witness: on a five-item corpus the spec `1,3` selects items 1 and 3
in that order with no warnings. -/
theorem c4_witness :
    selectQuestions [10, 20, 30, 40, 50] "1,3" = .ok ([10, 30], []) :=
  (((c4_selection [10, 20, 30, 40, 50] "1,3").2.2.2) [1, 3]
    (by decide) (by decide)).2.2.1 (by decide)

end McpJudge
